import Mathlib

/-!
Verification of the resource presentation helper
(`src/addon/mod/resource/providers/helper.ts`, class
`AddonModResourceHelperProvider`).

The five methods of the helper are shallowly embedded as pure Lean
functions.  Asynchronous results (promises) become `Except JsErr α`:
`.ok` is a resolved promise, `.error` a rejected one, and the rejection
reason is a `JsErr` value.  The external collaborators (mimetype
utilities, file/connectivity probes, filepool, site context, and the
outcomes of the delegated download operations) are packaged into an
`Env` record over which the theorems quantify.  `openModuleFile` is
additionally given an event trace recording its observable side effects,
so that the loading-indicator discipline can be stated.
-/

namespace ModResource

/-- A JavaScript value used as a promise rejection reason.  `jsNull` is the
literal `null` passed to `Promise.reject(null)`; `typeError` is the runtime
`TypeError` thrown by a property access on `undefined`; `err` is a failure
value produced by an external collaborator. -/
inductive JsErr where
  | jsNull
  | typeError
  | err (msg : String)
  deriving DecidableEq, Inhabited

/-- One entry of a module's `contents` array: filename, storage sub-path
(`filepath`, the root is the single separator `"/"`), and the remote file
URL.  A missing (`undefined`) `fileurl` is `none`. -/
structure ContentFile where
  filename : String
  filepath : String
  fileurl : Option String
  deriving DecidableEq, Inhabited

/-- The module (resource descriptor) fields the helper reads. -/
structure Module where
  contents : List ContentFile
  url : String
  id : Nat
  course : Nat
  instanceId : Nat
  completionstatus : Nat
  deriving DecidableEq, Inhabited

/-- The result of `courseHelper.downloadModuleWithMainFileIfNeeded`: the
helper only reads its `path` field. -/
structure DownloadResult where
  path : String
  deriving DecidableEq, Inhabited

/-- The external collaborators of `AddonModResourceHelperProvider`, and the
outcomes of its delegated asynchronous calls.  All of them are outside the
repository core; the theorems quantify over this record. -/
structure Env where
  /-- `fileProvider.isAvailable()` -/
  fileIsAvailable : Bool
  /-- `appProvider.isOnline()` -/
  isOnline : Bool
  /-- `mimetypeUtils.getFileExtension` -/
  getFileExtension : String → String
  /-- `mimetypeUtils.getExtensionType` -/
  getExtensionType : String → String
  /-- `mimetypeUtils.getMimeType` -/
  getMimeType : String → String
  /-- `mimetypeUtils.canBeEmbedded` -/
  canBeEmbedded : String → Bool
  /-- `sitesProvider.getCurrentSiteId()` -/
  currentSiteId : String
  /-- `sitesProvider.getCurrentSite().fixPluginfileURL` -/
  fixPluginfileURL : String → String
  /-- `filepoolProvider.getPackageDirUrlByUrl siteId url`; rejection means no
  cached directory is available (download error or running in a browser). -/
  getPackageDirUrlByUrl : String → String → Except JsErr String
  /-- Outcome of `courseHelper.downloadModuleWithMainFileIfNeeded`. -/
  downloadModuleWithMainFileIfNeeded : Except JsErr DownloadResult
  /-- Outcome of `courseHelper.downloadModuleAndOpenFile`. -/
  downloadModuleAndOpenFile : Except JsErr Unit
  /-- Outcome of `resourceProvider.logView`. -/
  logView : Except JsErr Unit

/-- `DISPLAY_AUTO` — try the best way. -/
def DISPLAY_AUTO : Int := 0

/-- `DISPLAY_EMBED` — display using object tag. -/
def DISPLAY_EMBED : Int := 1

/-- Modelled from the spec: `CoreTextUtilsProvider.concatenatePaths` is code of
this repository that is not under `src/`.  The spec says resolve-iframe-source
"concatenates that directory with the relative path", and its concrete scenario
gives `/cache/42` joined with `index.html` as `/cache/42index.html`, i.e. plain
string concatenation with no separator inserted. -/
def concatenatePaths (leftPath rightPath : String) : String :=
  leftPath ++ rightPath

/-- `isDisplayedEmbedded(module, display)`: whether the resource has to be
displayed embedded. -/
def isDisplayedEmbedded (env : Env) (module : Module) (display : Int) : Bool :=
  if module.contents.isEmpty || !env.fileIsAvailable then
    false
  else
    let ext := env.getFileExtension (module.contents.headD default).filename
    (display == DISPLAY_EMBED || display == DISPLAY_AUTO) && env.canBeEmbedded ext

/-- `isDisplayedInIframe(module)`: whether the resource has to be displayed in
an iframe.  The source method takes no display-mode argument at all. -/
def isDisplayedInIframe (env : Env) (module : Module) : Bool :=
  if module.contents.isEmpty || !env.fileIsAvailable then
    false
  else
    let ext := env.getFileExtension (module.contents.headD default).filename
    let mimetype := env.getMimeType ext
    mimetype == "text/html"

/-- `getIframeSrc(module)`: download all the files needed and return the src of
the iframe.  `mainFile.filepath.substr(1)` is `String.drop 1`; the JS guard
`mainFile.fileurl` is truthy exactly when the URL is present and non-empty. -/
def getIframeSrc (env : Env) (module : Module) : Except JsErr String :=
  if module.contents.isEmpty then
    .error .jsNull
  else
    let mainFile := module.contents.headD default
    let mainFilePath :=
      if mainFile.filepath ≠ "/" then mainFile.filepath.drop 1 ++ mainFile.filename
      else mainFile.filename
    match env.getPackageDirUrlByUrl env.currentSiteId module.url with
    | .ok dirPath => .ok (concatenatePaths dirPath mainFilePath)
    | .error _ =>
      -- Error getting directory: return the online URL when possible.
      match env.isOnline, mainFile.fileurl with
      | true, some u =>
        if u = "" then .error .jsNull else .ok (env.fixPluginfileURL u)
      | _, _ => .error .jsNull

/-- `getEmbeddedHtml(module)`: the HTML to display an embedded resource.  The
source accesses `module.contents[0].filename` with no emptiness guard: on an
empty array `module.contents[0]` is `undefined` and the `.filename` access
throws a `TypeError` inside the promise callback, rejecting the result. -/
def getEmbeddedHtml (env : Env) (module : Module) : Except JsErr String :=
  match env.downloadModuleWithMainFileIfNeeded with
  | .error e => .error e
  | .ok result =>
    match module.contents with
    | [] => .error .typeError
    | file :: _ =>
      let ext := env.getFileExtension file.filename
      let type := env.getExtensionType ext
      let mimeType := env.getMimeType ext
      if type == "image" then
        .ok ("<img src=\"" ++ result.path ++ "\"></img>")
      else if type == "audio" || type == "video" then
        .ok ("<" ++ type ++ " controls title=\"" ++ file.filename ++ "\"\" src=\"" ++
          result.path ++ "\">" ++
          "<source src=\"" ++ result.path ++ "\" type=\"" ++ mimeType ++ "\">" ++
          "</" ++ type ++ ">")
      else
        .ok ""

/-- The observable side effects of `openModuleFile`, in order. -/
inductive Event where
  | showLoading
  | downloadOpenStart
  | downloadOpenSettled
  | logViewCall
  | checkCompletionCall
  | showError (errorKey : String)
  | dismissLoading
  deriving DecidableEq, Inhabited

/-- The fixed message identifier used by `openModuleFile`'s catch handler. -/
def errorKeyWhileLoading : String := "addon.mod_resource.errorwhileloadingthecontent"

/-- `openModuleFile(module, courseId)`: opens a file of the resource activity,
returning the event trace and the settled value of the returned promise.
`showModalLoading` is called before the download starts; `modal.dismiss()` runs
in `.finally`.  The `logView(...).then(checkModuleCompletion)` chain is started
fire-and-forget on success and its rejection never reaches the returned
promise; `checkModuleCompletion` only runs when `logView` succeeds.  A failure
of `downloadModuleAndOpenFile` is caught, shown via `showErrorModalDefault`
with the fixed key, and the returned promise still resolves. -/
def openModuleFile (env : Env) (module : Module) (courseId : Nat) :
    List Event × Except JsErr Unit :=
  match env.downloadModuleAndOpenFile with
  | .ok _ =>
    let secondary :=
      match env.logView with
      | .ok _ => [Event.logViewCall, Event.checkCompletionCall]
      | .error _ => [Event.logViewCall]
    ([Event.showLoading, Event.downloadOpenStart, Event.downloadOpenSettled] ++
      secondary ++ [Event.dismissLoading], .ok ())
  | .error _ =>
    ([Event.showLoading, Event.downloadOpenStart, Event.downloadOpenSettled,
      Event.showError errorKeyWhileLoading, Event.dismissLoading], .ok ())

/-- The main file's relative path exactly as the spec words it: the sub-path
with its leading separator stripped, joined with the filename, used only when
the sub-path is not the root `"/"`.  Stated from the spec, for comparison with
`getIframeSrc`. -/
def specRelativePath (mainFile : ContentFile) : String :=
  if mainFile.filepath = "/" then mainFile.filename
  else
    (if mainFile.filepath.take 1 = "/" then mainFile.filepath.drop 1
     else mainFile.filepath) ++ mainFile.filename

/-! Concrete sample data used by the witness theorems. -/

/-- A sample image content file at the resource root. -/
def pngFile : ContentFile := ⟨"r1.png", "/", some "http://moodle.example/r1.png"⟩

/-- A sample HTML content file at the resource root. -/
def htmlFile : ContentFile := ⟨"index.html", "/", some "http://moodle.example/index.html"⟩

/-- A sample video content file in a sub-path. -/
def mp4File : ContentFile := ⟨"clip.mp4", "/media/", some "http://moodle.example/clip.mp4"⟩

/-- A sample document content file with no remote URL. -/
def pdfFile : ContentFile := ⟨"doc.pdf", "/", none⟩

/-- A one-file sample module. -/
def sampleModule (f : ContentFile) : Module :=
  ⟨[f], "http://moodle.example/mod/resource/view.php?id=5", 5, 2, 3, 1⟩

/-- A sample module with an empty contents array. -/
def emptyModule : Module :=
  ⟨[], "http://moodle.example/mod/resource/view.php?id=6", 6, 2, 4, 1⟩

/-- A concrete extension table for the sample filenames. -/
def sampleExtension (filename : String) : String :=
  if filename == "r1.png" then "png"
  else if filename == "index.html" then "html"
  else if filename == "clip.mp4" then "mp4"
  else if filename == "doc.pdf" then "pdf"
  else ""

/-- A concrete environment: storage available, online, cache lookup succeeds
with directory `/cache/42`, every delegated call succeeds. -/
def sampleEnv : Env where
  fileIsAvailable := true
  isOnline := true
  getFileExtension := sampleExtension
  getExtensionType := fun ext =>
    if ext == "png" then "image"
    else if ext == "mp4" then "video"
    else if ext == "mp3" then "audio"
    else "file"
  getMimeType := fun ext =>
    if ext == "html" then "text/html"
    else if ext == "mp4" then "video/mp4"
    else if ext == "png" then "image/png"
    else "application/octet-stream"
  canBeEmbedded := fun ext => ext == "png" || ext == "mp4" || ext == "mp3"
  currentSiteId := "site1"
  fixPluginfileURL := fun url => url ++ "?token=abc"
  getPackageDirUrlByUrl := fun _ _ => .ok "/cache/42"
  downloadModuleWithMainFileIfNeeded := .ok ⟨"/data/r1.png"⟩
  downloadModuleAndOpenFile := .ok ()
  logView := .ok ()

/-- C1: for every environment, every resource that has a main file, and every
numeric display-mode value, `isDisplayedEmbedded` returns true iff the display
mode is automatic (0) or forced-embed (1), the mimetype utility reports the
main file's extension embeddable, and local file storage is available; it is
false for every other combination, including any display value outside
`{0, 1}`. -/
theorem isDisplayedEmbedded_iff (env : Env) (module : Module) (display : Int)
    (h : module.contents ≠ []) :
    isDisplayedEmbedded env module display = true ↔
      ((display = DISPLAY_AUTO ∨ display = DISPLAY_EMBED) ∧
        env.canBeEmbedded
          (env.getFileExtension (module.contents.headD default).filename) = true ∧
        env.fileIsAvailable = true) := by
  cases hm : module.contents with
  | nil => exact absurd hm h
  | cons f rest =>
    cases hav : env.fileIsAvailable <;>
      simp [isDisplayedEmbedded, hm, hav, DISPLAY_AUTO, DISPLAY_EMBED] <;>
      tauto

/-- Witness for C1: a PNG resource with display mode 0 in the sample
environment is displayed embedded. -/
theorem isDisplayedEmbedded_iff_witness :
    isDisplayedEmbedded sampleEnv (sampleModule pngFile) 0 = true :=
  (isDisplayedEmbedded_iff sampleEnv (sampleModule pngFile) 0 (by decide)).mpr
    (by decide)

/-- C2: for every environment and every resource that has a main file,
`isDisplayedInIframe` returns true iff the MIME type derived from the main
file's extension is exactly `text/html` and local file storage is available;
the source method takes no display-mode argument, so the result cannot depend
on the display mode. -/
theorem isDisplayedInIframe_iff (env : Env) (module : Module)
    (h : module.contents ≠ []) :
    isDisplayedInIframe env module = true ↔
      (env.getMimeType
          (env.getFileExtension (module.contents.headD default).filename) =
        "text/html" ∧
        env.fileIsAvailable = true) := by
  cases hm : module.contents with
  | nil => exact absurd hm h
  | cons f rest =>
    cases hav : env.fileIsAvailable <;>
      simp [isDisplayedInIframe, hm, hav]

/-- Witness for C2: an HTML resource in the sample environment is displayed in
an iframe. -/
theorem isDisplayedInIframe_iff_witness :
    isDisplayedInIframe sampleEnv (sampleModule htmlFile) = true :=
  (isDisplayedInIframe_iff sampleEnv (sampleModule htmlFile) (by decide)).mpr
    (by decide)

/-- C6: for every environment and every resource whose contents array is empty,
`isDisplayedEmbedded` and `isDisplayedInIframe` return false and `getIframeSrc`
returns an immediately rejected result; all three are total Lean functions, so
none throws. -/
theorem emptyContents_all_fail (env : Env) (module : Module) (display : Int)
    (h : module.contents = []) :
    isDisplayedEmbedded env module display = false ∧
    isDisplayedInIframe env module = false ∧
    getIframeSrc env module = .error .jsNull := by
  refine ⟨?_, ?_, ?_⟩ <;>
    simp [isDisplayedEmbedded, isDisplayedInIframe, getIframeSrc, h]

/-- Witness for C6: the empty sample module fails all three operations. -/
theorem emptyContents_all_fail_witness :
    isDisplayedEmbedded sampleEnv emptyModule 1 = false ∧
    isDisplayedInIframe sampleEnv emptyModule = false ∧
    getIframeSrc sampleEnv emptyModule = .error .jsNull :=
  emptyContents_all_fail sampleEnv emptyModule 1 (by decide)

/-- The sample environment with a failing package-directory lookup (no cached
copy). -/
def cacheMissEnv : Env :=
  { sampleEnv with getPackageDirUrlByUrl := fun _ _ => .error (.err "not downloaded") }

/-- The cache-miss environment, additionally offline. -/
def offlineEnv : Env := { cacheMissEnv with isOnline := false }

/-- C3: `getIframeSrc` is a two-tier fallback.  When the package-directory
lookup succeeds it returns the cache directory concatenated with the main
file's relative path (the sub-path with its leading separator stripped, joined
with the filename, used only when the sub-path is not the root `"/"`; per the
data model a sub-path starts with the separator, hypothesis `hsep`).  When the
lookup fails, the device is online, and the main file carries a (non-empty)
remote URL, it returns that URL through the site's authenticated-URL rewrite.
When the lookup fails and the device is offline or no usable remote URL is
present, it rejects. -/
theorem getIframeSrc_fallback (env : Env) (module : Module)
    (mainFile : ContentFile) (rest : List ContentFile)
    (hc : module.contents = mainFile :: rest)
    (hsep : mainFile.filepath.take 1 = "/") :
    (∀ dirPath,
        env.getPackageDirUrlByUrl env.currentSiteId module.url = .ok dirPath →
        getIframeSrc env module =
          .ok (concatenatePaths dirPath (specRelativePath mainFile))) ∧
    (∀ e u,
        env.getPackageDirUrlByUrl env.currentSiteId module.url = .error e →
        env.isOnline = true → mainFile.fileurl = some u → u ≠ "" →
        getIframeSrc env module = .ok (env.fixPluginfileURL u)) ∧
    (∀ e,
        env.getPackageDirUrlByUrl env.currentSiteId module.url = .error e →
        (env.isOnline = false ∨ mainFile.fileurl = none ∨
          mainFile.fileurl = some "") →
        getIframeSrc env module = .error .jsNull) := by
  have hrel :
      (if mainFile.filepath ≠ "/" then
          mainFile.filepath.drop 1 ++ mainFile.filename
        else mainFile.filename) = specRelativePath mainFile := by
    unfold specRelativePath
    by_cases hp : mainFile.filepath = "/" <;> simp [hp, hsep]
  refine ⟨?_, ?_, ?_⟩
  · intro dirPath hok
    simp only [getIframeSrc, hc, List.isEmpty_cons, List.headD_cons, hok,
      Bool.false_eq_true, if_false]
    rw [hrel]
  · intro e u hmiss hon hu hne
    simp [getIframeSrc, hc, hmiss, hon, hu, hne]
  · intro e hmiss hno
    rcases hno with hoff | hnone | hempty <;>
      · cases hon : env.isOnline <;>
          cases hu : mainFile.fileurl <;>
          simp_all [getIframeSrc, hc, hmiss]

/-- Witness for C3: with a failed lookup, online, and a remote URL present, the
sample PNG resource resolves to the rewritten remote URL. -/
theorem getIframeSrc_fallback_witness :
    getIframeSrc cacheMissEnv (sampleModule pngFile) =
      .ok "http://moodle.example/r1.png?token=abc" :=
  (getIframeSrc_fallback cacheMissEnv (sampleModule pngFile) pngFile [] rfl
      (by decide)).2.1
    (.err "not downloaded") "http://moodle.example/r1.png" rfl rfl rfl (by decide)

/-- C8: concrete scenario — one `.html` file, cache lookup succeeding with
directory `/cache/42`, sub-path `/`, filename `index.html`: `getIframeSrc`
resolves to the literal `/cache/42index.html`, with no separator inserted
between the directory and the relative path. -/
theorem getIframeSrc_concrete_root :
    getIframeSrc sampleEnv (sampleModule htmlFile) = .ok "/cache/42index.html" := rfl

/-- C9: both failure modes of `getIframeSrc` — empty contents, and cache miss
with no usable remote fallback — reject with the bare `null` value, so the two
failures are indistinguishable by the rejection value. -/
theorem getIframeSrc_reject_null (env₁ env₂ : Env) (m₁ m₂ : Module)
    (h₁ : m₁.contents = [])
    (mainFile : ContentFile) (rest : List ContentFile)
    (hc : m₂.contents = mainFile :: rest)
    (e : JsErr)
    (hmiss : env₂.getPackageDirUrlByUrl env₂.currentSiteId m₂.url = .error e)
    (hno : env₂.isOnline = false ∨ mainFile.fileurl = none ∨
      mainFile.fileurl = some "") :
    getIframeSrc env₁ m₁ = .error .jsNull ∧
    getIframeSrc env₂ m₂ = .error .jsNull := by
  constructor
  · simp [getIframeSrc, h₁]
  · rcases hno with hoff | hnone | hempty <;>
      · cases hon : env₂.isOnline <;>
          cases hu : mainFile.fileurl <;>
          simp_all [getIframeSrc, hc, hmiss]

/-- Witness for C9: the empty module and an offline cache miss both reject with
`null`. -/
theorem getIframeSrc_reject_null_witness :
    getIframeSrc sampleEnv emptyModule = .error .jsNull ∧
    getIframeSrc offlineEnv (sampleModule pngFile) = .error .jsNull :=
  getIframeSrc_reject_null sampleEnv offlineEnv emptyModule (sampleModule pngFile)
    rfl pngFile [] rfl (.err "not downloaded") rfl (Or.inl rfl)

/-- The sample environment where the delegated download-and-open fails. -/
def openFailEnv : Env :=
  { sampleEnv with downloadModuleAndOpenFile := .error (.err "storage error") }

/-- The sample environment with a download result for the video sample. -/
def videoEnv : Env :=
  { sampleEnv with downloadModuleWithMainFileIfNeeded := .ok ⟨"/data/clip.mp4"⟩ }

/-- C4: in every environment, `openModuleFile` shows the loading indicator
exactly once and dismisses it exactly once; the show is the first event (so it
precedes the download/open start, which occurs in the remaining trace) and the
dismissal is the last event, after the download/open attempt has settled, on
every exit path. -/
theorem openModuleFile_loading_discipline (env : Env) (module : Module)
    (courseId : Nat) :
    (openModuleFile env module courseId).1.count Event.showLoading = 1 ∧
    (openModuleFile env module courseId).1.count Event.dismissLoading = 1 ∧
    (openModuleFile env module courseId).1.head? = some Event.showLoading ∧
    (openModuleFile env module courseId).1.getLast? = some Event.dismissLoading ∧
    Event.downloadOpenStart ∈ (openModuleFile env module courseId).1.tail ∧
    Event.downloadOpenSettled ∈ (openModuleFile env module courseId).1 := by
  cases hdl : env.downloadModuleAndOpenFile with
  | ok u =>
    cases hlv : env.logView <;> · simp only [openModuleFile, hdl, hlv]; decide
  | error e =>
    simp only [openModuleFile, hdl]; decide

/-- C5: `openModuleFile` always resolves with done: its returned promise is
`.ok ()` in every environment; when the primary download/open step fails, the
trace contains the default-formatted error display keyed by
`addon.mod_resource.errorwhileloadingthecontent`; and the outcome of the
secondary `logView`/completion chain never changes the returned result. -/
theorem openModuleFile_always_resolves (env : Env) (module : Module)
    (courseId : Nat) :
    (openModuleFile env module courseId).2 = .ok () ∧
    (∀ e, env.downloadModuleAndOpenFile = .error e →
      Event.showError errorKeyWhileLoading ∈ (openModuleFile env module courseId).1) ∧
    (∀ lg : Except JsErr Unit,
      (openModuleFile { env with logView := lg } module courseId).2 =
        (openModuleFile env module courseId).2) := by
  refine ⟨?_, ?_, ?_⟩
  · cases hdl : env.downloadModuleAndOpenFile <;> simp [openModuleFile, hdl]
  · intro e he
    simp [openModuleFile, he]
  · intro lg
    cases hdl : env.downloadModuleAndOpenFile <;> simp [openModuleFile, hdl]

/-- Witness for C5: with a failing download/open, the sample invocation still
resolves and the trace shows the fixed error key. -/
theorem openModuleFile_always_resolves_witness :
    (openModuleFile openFailEnv (sampleModule pdfFile) 7).2 = .ok () ∧
    Event.showError errorKeyWhileLoading ∈
      (openModuleFile openFailEnv (sampleModule pdfFile) 7).1 :=
  ⟨(openModuleFile_always_resolves openFailEnv (sampleModule pdfFile) 7).1,
    (openModuleFile_always_resolves openFailEnv (sampleModule pdfFile) 7).2.1
      (.err "storage error") rfl⟩

/-- C7: when the main file's category is audio or video and the delegated
download succeeds, `getEmbeddedHtml` returns the markup whose outer tag is the
category, carrying `controls`, a `title` attribute equal to the filename
(followed by the stray extra quote present in the source template), and a
nested `<source>` whose `src` is the resolved local path and whose `type` is
the file's MIME type. -/
theorem getEmbeddedHtml_audio_video (env : Env) (module : Module)
    (file : ContentFile) (rest : List ContentFile)
    (hc : module.contents = file :: rest)
    (result : DownloadResult)
    (hdl : env.downloadModuleWithMainFileIfNeeded = .ok result)
    (htype : env.getExtensionType (env.getFileExtension file.filename) = "audio" ∨
      env.getExtensionType (env.getFileExtension file.filename) = "video") :
    getEmbeddedHtml env module =
      .ok ("<" ++ env.getExtensionType (env.getFileExtension file.filename) ++
        " controls title=\"" ++ file.filename ++ "\"\" src=\"" ++ result.path ++
        "\">" ++
        "<source src=\"" ++ result.path ++ "\" type=\"" ++
        env.getMimeType (env.getFileExtension file.filename) ++ "\">" ++
        "</" ++ env.getExtensionType (env.getFileExtension file.filename) ++ ">") := by
  rcases htype with h | h <;> simp [getEmbeddedHtml, hc, hdl, h]

/-- Witness for C7: the sample MP4 resource yields the expected video markup. -/
theorem getEmbeddedHtml_audio_video_witness :
    getEmbeddedHtml videoEnv (sampleModule mp4File) =
      .ok "<video controls title=\"clip.mp4\"\" src=\"/data/clip.mp4\"><source src=\"/data/clip.mp4\" type=\"video/mp4\"></video>" := by
  exact getEmbeddedHtml_audio_video videoEnv (sampleModule mp4File) mp4File []
    rfl ⟨"/data/clip.mp4"⟩ rfl (Or.inr rfl)

/-- C10: `getEmbeddedHtml` has no empty-contents guard; with an empty contents
array and a successful delegated download, the access to the first content
entry fails, so the result is a rejected promise, never a markup string (not
even the empty-string defensive default). -/
theorem getEmbeddedHtml_empty_contents (env : Env) (module : Module)
    (h : module.contents = []) (result : DownloadResult)
    (hdl : env.downloadModuleWithMainFileIfNeeded = .ok result) :
    getEmbeddedHtml env module = .error .typeError ∧
    ∀ s : String, getEmbeddedHtml env module ≠ .ok s := by
  have h1 : getEmbeddedHtml env module = .error .typeError := by
    simp [getEmbeddedHtml, hdl, h]
  exact ⟨h1, fun s => by simp [h1]⟩

/-- Witness for C10: the empty sample module with a successful download yields
a rejection, not the empty string. -/
theorem getEmbeddedHtml_empty_contents_witness :
    getEmbeddedHtml sampleEnv emptyModule = .error .typeError ∧
    getEmbeddedHtml sampleEnv emptyModule ≠ .ok "" :=
  ⟨(getEmbeddedHtml_empty_contents sampleEnv emptyModule rfl ⟨"/data/r1.png"⟩ rfl).1,
    (getEmbeddedHtml_empty_contents sampleEnv emptyModule rfl ⟨"/data/r1.png"⟩ rfl).2 ""⟩

end ModResource
